import Mathlib

/-!
Shallow embedding of `modules/perception/obstacle/onboard/visualization_subnode.cc`
(Apollo perception visualization subnode): stream initialization (`InitStream`),
event subscription (`SubscribeEvents`), frame correlation (`GetFrameData`) and the
dispatch loop (`ProcEvents`), together with theorems settling the spec claims.

C++ `double` timestamps are only copied and compared for equality in this code,
so they are modelled as `Int`.  External collaborators (event bus, keyed shared
data stores, the renderer, `SubnodeHelper`) are modelled as oracle parameters or
as explicit traces, following the spec's interface descriptions.
-/

abbrev Timestamp := Int
abbrev EventID := Int

/-- An event from the bus: `{event_id, timestamp, reserve}` where `reserve`
carries the originating device label (as in `onboard/event_manager`). -/
structure Event where
  event_id : EventID
  timestamp : Timestamp
  reserve : String
  deriving DecidableEq

/-- Payload of the camera / cipv / radar object stores (`SensorObjects`);
the object list and pose are opaque to this subnode, modelled as integers. -/
structure SensorObjects where
  sensor2world_pose : Int
  objects : List Int
  cipv_index : Int
  deriving DecidableEq

/-- Payload of the camera shared-data store (`CameraItem`); the image matrix
is opaque to this subnode, modelled as an integer. -/
structure CameraItem where
  image_src_mat : Int
  deriving DecidableEq

/-- Payload of the fusion shared-data store (`FusionItem`). -/
structure FusionItem where
  obstacles : List Int
  deriving DecidableEq

/-- Modelled from the spec: the `FrameContent` snapshot is the single mutable
accumulator holding the latest image, camera detections + pose, radar
detections, fused obstacles and the authoritative frame timestamp; each
`set_*` call overwrites the corresponding field (its class lives outside this
translation unit). -/
structure FrameContent where
  image_content : Option (Timestamp × Int) := none
  camera_content : Option (Timestamp × Int × List Int) := none
  radar_content : Option (Timestamp × List Int) := none
  fusion_content : Option (Timestamp × List Int) := none
  frame_timestamp : Option Timestamp := none
  deriving DecidableEq

def FrameContent.set_image_content (c : FrameContent) (ts : Timestamp) (img : Int) :
    FrameContent :=
  { c with image_content := some (ts, img) }

def FrameContent.set_camera_content (c : FrameContent) (ts : Timestamp) (pose : Int)
    (objs : List Int) : FrameContent :=
  { c with camera_content := some (ts, pose, objs) }

def FrameContent.set_radar_content (c : FrameContent) (ts : Timestamp)
    (objs : List Int) : FrameContent :=
  { c with radar_content := some (ts, objs) }

def FrameContent.set_fusion_content (c : FrameContent) (ts : Timestamp)
    (objs : List Int) : FrameContent :=
  { c with fusion_content := some (ts, objs) }

def FrameContent.update_timestamp (c : FrameContent) (ts : Timestamp) : FrameContent :=
  { c with frame_timestamp := some ts }

/-- The gflags display toggles read by the subnode. -/
structure Flags where
  show_radar_objects : Bool
  show_camera_objects : Bool
  show_camera_objects2d : Bool
  show_camera_parsing : Bool
  show_fused_objects : Bool
  deriving DecidableEq

/-- Which shared-data store a `Get` call went to (for counting lookups). -/
inductive StoreTag
  | cameraShared
  | cameraObject
  | cipvObject
  | radarObject
  | fusionShared
  deriving DecidableEq

/-- Modelled from the spec: the keyed shared-data stores are external
collaborators with interface `get(key) -> optional Payload`; a `none` result
covers both a failed `Get` and a null payload pointer. -/
structure Stores where
  camera_shared_data : String → Option CameraItem
  camera_object_data : String → Option SensorObjects
  cipv_object_data : String → Option SensorObjects
  radar_object_data : String → Option SensorObjects
  fusion_data : String → Option FusionItem

/-- The stream identifiers the subnode binds at initialization. -/
structure StreamIds where
  vis_driven_event_id : EventID
  radar_event_id : EventID
  camera_event_id : EventID
  cipv_event_id : EventID
  fusion_event_id : EventID
  motion_event_id : EventID
  deriving DecidableEq

/-- Modelled from the spec: the event bus collaborator.  `blocking id` is the
result of the blocking `Subscribe(id, &event)` call: a success flag together
with the event object it wrote (the code discards the flag).  `drained id` is
the sequence of events the non-blocking `Subscribe(id, &event, true)` loop
retrieves before it first returns false. -/
structure EventManager where
  blocking : EventID → Bool × Event
  drained : EventID → List Event

/-- `apollo::common::Status` as returned by `ProcEvents`: `Status::OK()` or
`Status(ErrorCode::PERCEPTION_ERROR, ...)`. -/
inductive Status
  | ok
  | perception_error
  deriving DecidableEq

/-- One call on the thread-affine frame visualizer, recorded in order:
`init()`, `update_camera_system(&content_)` or `render(&content_)`. -/
inductive VisAction
  | init
  | update_camera_system (c : FrameContent)
  | render (c : FrameContent)
  deriving DecidableEq

/-- The mutable subnode state threaded through `ProcEvents` cycles:
the `content_` member, the `init_` flag, and the trace of visualizer calls. -/
structure ProcState where
  content : FrameContent
  init_ : Bool
  trace : List VisAction
  deriving DecidableEq

/-- Modelled from the spec: `SubnodeHelper::ProduceSharedDataKey(timestamp,
device_id, &key)` derives a data key from the timestamp and device label and
may fail for malformed inputs; it lives outside this translation unit, so it
is an oracle parameter. -/
abbrev ProduceKey := Timestamp → String → Option String

/-- `atoi` from the C library (no-overflow model): skip leading whitespace,
optional sign, then leading digits; no digits yields 0. -/
def atoiDigits : List Char → Int → Int
  | [], acc => acc
  | c :: rest, acc =>
    if c.isDigit then atoiDigits rest (acc * 10 + ((c.toNat : Int) - 48))
    else acc

def dropSpaces : List Char → List Char
  | [] => []
  | c :: rest =>
    if c ∈ [' ', '\t', '\n', '\x0b', '\x0c', '\r'] then dropSpaces rest
    else c :: rest

def atoi (s : String) : Int :=
  match dropSpaces s.data with
  | '-' :: rest => - atoiDigits rest 0
  | '+' :: rest => atoiDigits rest 0
  | l => atoiDigits l 0

/-- `VisualizationSubnode::InitStream`, from the point where
`SubnodeHelper::ParseReserveField` has produced the key/value map
(`reserve_field_map`): look up the five required identifiers, fail if any is
missing; `motion_event_id` is optional and defaults to -1. -/
def InitStream (m : List (String × String)) : Option StreamIds :=
  match m.lookup "vis_driven_event_id" with
  | none => none
  | some v =>
    match m.lookup "radar_event_id" with
    | none => none
    | some rv =>
      match m.lookup "camera_event_id" with
      | none => none
      | some cv =>
        match m.lookup "cipv_event_id" with
        | none => none
        | some civ =>
          match m.lookup "fusion_event_id" with
          | none => none
          | some fv =>
            let motion : EventID :=
              match m.lookup "motion_event_id" with
              | none => -1
              | some mv => atoi mv
            some ⟨atoi v, atoi rv, atoi cv, atoi civ, atoi fv, motion⟩

/-- Result of the branch chain of `GetFrameData` before the trailing
driving-kind timestamp check: the updated content, the store lookups
performed (in order), and whether the C++ code hit an early `return`. -/
structure CoreResult where
  content : FrameContent
  lookups : List (StoreTag × String)
  early : Bool
  deriving DecidableEq

/-- The `if/else if` branch chain of `VisualizationSubnode::GetFrameData`
(camera, motion stub, radar, fusion, cipv), translated clause by clause.
Early `return` statements (taken when a store has no payload for the key)
are recorded in the `early` field. -/
def getFrameDataCore (ids : StreamIds) (flags : Flags) (stores : Stores)
    (event : Event) (device_id : String) (data_key : String)
    (timestamp : Timestamp) (content : FrameContent) : CoreResult :=
  if event.event_id = ids.camera_event_id then
    if flags.show_camera_objects || flags.show_camera_objects2d ||
        flags.show_camera_parsing then
      match stores.camera_shared_data data_key with
      | none => ⟨content, [(.cameraShared, data_key)], true⟩
      | some camera_item =>
        let content := content.set_image_content timestamp camera_item.image_src_mat
        match stores.camera_object_data data_key with
        | none => ⟨content, [(.cameraShared, data_key), (.cameraObject, data_key)], true⟩
        | some objs =>
          if flags.show_camera_parsing then
            ⟨content, [(.cameraShared, data_key), (.cameraObject, data_key)], false⟩
          else
            ⟨content.set_camera_content timestamp objs.sensor2world_pose objs.objects,
             [(.cameraShared, data_key), (.cameraObject, data_key)], false⟩
    else ⟨content, [], false⟩
  else if event.event_id = ids.motion_event_id then
    ⟨content, [], false⟩
  else if event.event_id = ids.radar_event_id then
    if device_id = "radar_front" ∧ flags.show_radar_objects then
      match stores.radar_object_data data_key with
      | none => ⟨content, [(.radarObject, data_key)], true⟩
      | some objs =>
        ⟨content.set_radar_content timestamp objs.objects, [(.radarObject, data_key)], false⟩
    else ⟨content, [], false⟩
  else if event.event_id = ids.fusion_event_id then
    if flags.show_fused_objects then
      match stores.fusion_data data_key with
      | none => ⟨content, [(.fusionShared, data_key)], true⟩
      | some fusion_item =>
        ⟨content.set_fusion_content timestamp fusion_item.obstacles,
         [(.fusionShared, data_key)], false⟩
    else ⟨content, [], false⟩
  else if event.event_id = ids.cipv_event_id then
    if flags.show_camera_objects || flags.show_camera_objects2d ||
        flags.show_camera_parsing then
      match stores.camera_shared_data data_key with
      | none => ⟨content, [(.cameraShared, data_key)], true⟩
      | some camera_item =>
        let content := content.set_image_content timestamp camera_item.image_src_mat
        match stores.cipv_object_data data_key with
        | none => ⟨content, [(.cameraShared, data_key), (.cipvObject, data_key)], true⟩
        | some objs =>
          if flags.show_camera_parsing then
            ⟨content, [(.cameraShared, data_key), (.cipvObject, data_key)], false⟩
          else
            ⟨content.set_camera_content timestamp objs.sensor2world_pose objs.objects,
             [(.cameraShared, data_key), (.cipvObject, data_key)], false⟩
    else ⟨content, [], false⟩
  else ⟨content, [], false⟩

/-- `VisualizationSubnode::GetFrameData`: the branch chain followed, unless an
early `return` was taken, by the trailing check that updates the frame
timestamp when the event carries the driving identifier. -/
def GetFrameData (ids : StreamIds) (flags : Flags) (stores : Stores)
    (event : Event) (device_id : String) (data_key : String)
    (timestamp : Timestamp) (content : FrameContent) :
    FrameContent × List (StoreTag × String) :=
  let r := getFrameDataCore ids flags stores event device_id data_key timestamp content
  if r.early then (r.content, r.lookups)
  else if event.event_id = ids.vis_driven_event_id then
    (r.content.update_timestamp timestamp, r.lookups)
  else (r.content, r.lookups)

/-- `VisualizationSubnode::SubscribeEvents`: for the driving identifier, one
blocking `Subscribe` whose returned flag is discarded and whose event is
pushed unconditionally; otherwise the non-blocking drain loop.  The function
returns true on every path. -/
def SubscribeEvents (ids : StreamIds) (em : EventManager)
    (event_meta_id : EventID) : Bool × List Event :=
  if event_meta_id = ids.vis_driven_event_id then
    (true, [(em.blocking event_meta_id).2])
  else
    (true, em.drained event_meta_id)

/-- The body of the inner `for` loop of `ProcEvents` for one event: derive the
data key (failure returns the error status immediately), correlate via
`GetFrameData`, and when the event meta carries the driving identifier run
the lazy visualizer `init()` followed by `update_camera_system` and
`render`.  An `error` result carries the state at the abort point. -/
def procOneEvent (ids : StreamIds) (flags : Flags) (stores : Stores)
    (pk : ProduceKey) (event_meta_id : EventID) (ev : Event) (s : ProcState) :
    Except ProcState ProcState :=
  match pk ev.timestamp ev.reserve with
  | none => .error s
  | some data_key =>
    let content :=
      (GetFrameData ids flags stores ev ev.reserve data_key ev.timestamp s.content).1
    if event_meta_id = ids.vis_driven_event_id then
      if s.init_ then
        .ok ⟨content, true,
          s.trace ++ [.update_camera_system content, .render content]⟩
      else
        .ok ⟨content, true,
          s.trace ++ [.init, .update_camera_system content, .render content]⟩
    else
      .ok ⟨content, s.init_, s.trace⟩

/-- The inner `for` loop of `ProcEvents` over the events of one meta. -/
def procEventList (ids : StreamIds) (flags : Flags) (stores : Stores)
    (pk : ProduceKey) (event_meta_id : EventID) :
    List Event → ProcState → Except ProcState ProcState
  | [], s => .ok s
  | ev :: rest, s =>
    match procOneEvent ids flags stores pk event_meta_id ev s with
    | .error s1 => .error s1
    | .ok s1 => procEventList ids flags stores pk event_meta_id rest s1

/-- One iteration of the outer `for` loop of `ProcEvents` for one event meta:
subscribe (a false return would abort, but `SubscribeEvents` always returns
true), then process the retrieved events. -/
def procMeta (ids : StreamIds) (flags : Flags) (stores : Stores)
    (pk : ProduceKey) (em : EventManager) (event_meta_id : EventID)
    (s : ProcState) : Except ProcState ProcState :=
  match SubscribeEvents ids em event_meta_id with
  | (false, _) => .error s
  | (true, events) => procEventList ids flags stores pk event_meta_id events s

/-- The outer `for` loop of `ProcEvents` over `sub_meta_events_`. -/
def procMetaList (ids : StreamIds) (flags : Flags) (stores : Stores)
    (pk : ProduceKey) (em : EventManager) :
    List EventID → ProcState → Status × ProcState
  | [], s => (.ok, s)
  | meta :: rest, s =>
    match procMeta ids flags stores pk em meta s with
    | .error s1 => (.perception_error, s1)
    | .ok s1 => procMetaList ids flags stores pk em rest s1

/-- `VisualizationSubnode::ProcEvents`: one processing cycle over the
configured event metas, returning the aggregate status and the subnode
state after the cycle. -/
def ProcEvents (ids : StreamIds) (flags : Flags) (stores : Stores)
    (pk : ProduceKey) (em : EventManager) (metas : List EventID)
    (s : ProcState) : Status × ProcState :=
  procMetaList ids flags stores pk em metas s

/-- Repeated `ProcEvents` cycles: each cycle sees its own bus contents
(`EventManager` oracle); the subnode members `content_` and `init_` and the
visualizer trace persist across cycles regardless of the cycle's status. -/
def runCycles (ids : StreamIds) (flags : Flags) (stores : Stores)
    (pk : ProduceKey) (metas : List EventID) :
    List EventManager → ProcState → ProcState
  | [], s => s
  | em :: rest, s =>
    runCycles ids flags stores pk metas rest
      (ProcEvents ids flags stores pk em metas s).2

/-- The state carried by either constructor of the `ProcEvents` step result. -/
def stateOf : Except ProcState ProcState → ProcState
  | .ok s => s
  | .error s => s

/-- Number of `init()` calls recorded in a trace. -/
def countInit : List VisAction → Nat
  | [] => 0
  | .init :: rest => countInit rest + 1
  | _ :: rest => countInit rest

/-- Number of `render` calls recorded in a trace. -/
def countRender : List VisAction → Nat
  | [] => 0
  | .render _ :: rest => countRender rest + 1
  | _ :: rest => countRender rest

/-- Scanning a trace left to right with `k` `init()` calls already seen,
every `render` call observes exactly one `init()` call before it. -/
def initsBeforeRenders : Nat → List VisAction → Bool
  | _, [] => true
  | k, .init :: rest => initsBeforeRenders (k + 1) rest
  | k, .render _ :: rest => decide (k = 1) && initsBeforeRenders k rest
  | k, _ :: rest => initsBeforeRenders k rest

/-! ### Trace-counting lemmas -/

theorem countInit_append (a b : List VisAction) :
    countInit (a ++ b) = countInit a + countInit b := by
  induction a with
  | nil => simp [countInit]
  | cons x rest ih =>
    cases x with
    | init => simp only [List.cons_append, countInit, List.append_eq, ih]; omega
    | update_camera_system c => simp only [List.cons_append, countInit, List.append_eq, ih]
    | render c => simp only [List.cons_append, countInit, List.append_eq, ih]

theorem countRender_append (a b : List VisAction) :
    countRender (a ++ b) = countRender a + countRender b := by
  induction a with
  | nil => simp [countRender]
  | cons x rest ih =>
    cases x with
    | init => simp only [List.cons_append, countRender, List.append_eq, ih]
    | update_camera_system c => simp only [List.cons_append, countRender, List.append_eq, ih]
    | render c => simp only [List.cons_append, countRender, List.append_eq, ih]; omega

theorem initsBeforeRenders_append (a b : List VisAction) : ∀ k : Nat,
    initsBeforeRenders k (a ++ b) =
      (initsBeforeRenders k a && initsBeforeRenders (k + countInit a) b) := by
  induction a with
  | nil => intro k; simp [initsBeforeRenders, countInit]
  | cons x rest ih =>
    intro k
    cases x with
    | init =>
      show initsBeforeRenders (k + 1) (rest ++ b) =
        (initsBeforeRenders (k + 1) rest &&
          initsBeforeRenders (k + (countInit rest + 1)) b)
      rw [ih (k + 1), show k + (countInit rest + 1) = k + 1 + countInit rest from by omega]
    | update_camera_system c =>
      show initsBeforeRenders k (rest ++ b) =
        (initsBeforeRenders k rest && initsBeforeRenders (k + countInit rest) b)
      exact ih k
    | render c =>
      show (decide (k = 1) && initsBeforeRenders k (rest ++ b)) =
        ((decide (k = 1) && initsBeforeRenders k rest) &&
          initsBeforeRenders (k + countInit rest) b)
      rw [ih k, Bool.and_assoc]

theorem initsBeforeRenders_spec (t1 : List VisAction) : ∀ (k : Nat)
    (t2 : List VisAction) (c : FrameContent),
    initsBeforeRenders k (t1 ++ VisAction.render c :: t2) = true →
    k + countInit t1 = 1 := by
  induction t1 with
  | nil =>
    intro k t2 c h
    simp only [List.nil_append, initsBeforeRenders, Bool.and_eq_true,
      decide_eq_true_eq] at h
    simp [countInit]
    exact h.1
  | cons x rest ih =>
    intro k t2 c h
    cases x with
    | init =>
      have := ih (k + 1) t2 c (by simpa [initsBeforeRenders] using h)
      simp [countInit]; omega
    | update_camera_system c2 =>
      have := ih k t2 c (by simpa [initsBeforeRenders] using h)
      simpa [countInit] using this
    | render c2 =>
      simp only [List.cons_append, initsBeforeRenders, Bool.and_eq_true,
        decide_eq_true_eq] at h
      have := ih k t2 c h.2
      simpa [countInit] using this

/-! ### Step-characterization lemmas for the dispatch loop -/

theorem procOneEvent_keyfail (ids : StreamIds) (flags : Flags) (stores : Stores)
    (pk : ProduceKey) (meta : EventID) (ev : Event) (s : ProcState)
    (hpk : pk ev.timestamp ev.reserve = none) :
    procOneEvent ids flags stores pk meta ev s = .error s := by
  unfold procOneEvent
  rw [hpk]

theorem procOneEvent_driving_eq (ids : StreamIds) (flags : Flags) (stores : Stores)
    (pk : ProduceKey) (ev : Event) (s : ProcState) (k : String)
    (hpk : pk ev.timestamp ev.reserve = some k) :
    procOneEvent ids flags stores pk ids.vis_driven_event_id ev s =
      Except.ok
        { content := (GetFrameData ids flags stores ev ev.reserve k ev.timestamp s.content).1,
          init_ := true,
          trace := s.trace ++
            (if s.init_ then
              [VisAction.update_camera_system
                 (GetFrameData ids flags stores ev ev.reserve k ev.timestamp s.content).1,
               VisAction.render
                 (GetFrameData ids flags stores ev ev.reserve k ev.timestamp s.content).1]
            else
              [VisAction.init,
               VisAction.update_camera_system
                 (GetFrameData ids flags stores ev ev.reserve k ev.timestamp s.content).1,
               VisAction.render
                 (GetFrameData ids flags stores ev ev.reserve k ev.timestamp s.content).1]) } := by
  unfold procOneEvent
  rw [hpk]
  cases hi : s.init_ <;> simp [hi]

theorem procOneEvent_nondriving_eq (ids : StreamIds) (flags : Flags) (stores : Stores)
    (pk : ProduceKey) (meta : EventID) (ev : Event) (s : ProcState) (k : String)
    (hm : meta ≠ ids.vis_driven_event_id)
    (hpk : pk ev.timestamp ev.reserve = some k) :
    procOneEvent ids flags stores pk meta ev s =
      Except.ok
        { content := (GetFrameData ids flags stores ev ev.reserve k ev.timestamp s.content).1,
          init_ := s.init_,
          trace := s.trace } := by
  unfold procOneEvent
  rw [hpk]
  simp [hm]

theorem SubscribeEvents_fst (ids : StreamIds) (em : EventManager) (id : EventID) :
    (SubscribeEvents ids em id).1 = true := by
  unfold SubscribeEvents
  split <;> rfl

theorem procMeta_eq (ids : StreamIds) (flags : Flags) (stores : Stores)
    (pk : ProduceKey) (em : EventManager) (meta : EventID) (s : ProcState) :
    procMeta ids flags stores pk em meta s =
      procEventList ids flags stores pk meta (SubscribeEvents ids em meta).2 s := by
  unfold procMeta
  cases hs : SubscribeEvents ids em meta with
  | mk ok events =>
    cases ok with
    | false =>
      have h2 := SubscribeEvents_fst ids em meta
      rw [hs] at h2
      simp at h2
    | true => simp [hs]

/-! ### The renderer-gateway invariant -/

/-- Invariant on the subnode state: the trace holds exactly one `init()` call
when `init_` is set and none otherwise; renders happen only after `init_` is
set; and every `render` in the trace is preceded by exactly one `init()`. -/
def goodState (s : ProcState) : Prop :=
  countInit s.trace = (if s.init_ then 1 else 0) ∧
  (s.init_ = false → countRender s.trace = 0) ∧
  (s.init_ = true → 0 < countRender s.trace) ∧
  initsBeforeRenders 0 s.trace = true

theorem procOneEvent_good (ids : StreamIds) (flags : Flags) (stores : Stores)
    (pk : ProduceKey) (meta : EventID) (ev : Event) (s : ProcState)
    (h : goodState s) :
    goodState (stateOf (procOneEvent ids flags stores pk meta ev s)) := by
  obtain ⟨h1, h2, h3, h4⟩ := h
  cases hpk : pk ev.timestamp ev.reserve with
  | none =>
    rw [procOneEvent_keyfail ids flags stores pk meta ev s hpk]
    exact ⟨h1, h2, h3, h4⟩
  | some k =>
    by_cases hm : meta = ids.vis_driven_event_id
    · subst hm
      rw [procOneEvent_driving_eq ids flags stores pk ev s k hpk]
      cases hi : s.init_ with
      | true =>
        rw [hi] at h1
        refine ⟨?_, ?_, ?_, ?_⟩
        · simp only [stateOf, hi, if_true, countInit_append]
          simpa [countInit] using h1
        · intro hfalse; simp only [stateOf] at hfalse; exact absurd hfalse (by simp)
        · intro _
          simp only [stateOf, hi, if_true, countRender_append]
          simp [countRender]
        · simp only [stateOf, hi, if_true, initsBeforeRenders_append, h1]
          simp only [h4, Bool.true_and]
          simp [initsBeforeRenders]
      | false =>
        rw [hi] at h1
        have hr := h2 hi
        refine ⟨?_, ?_, ?_, ?_⟩
        · simp only [stateOf, hi, if_false, countInit_append]
          simp only [Bool.false_eq_true, if_false] at h1
          simp [countInit, h1]
        · intro hfalse; simp only [stateOf] at hfalse; exact absurd hfalse (by simp)
        · intro _
          simp only [stateOf, hi, if_false, countRender_append]
          simp [countRender]
        · simp only [Bool.false_eq_true, if_false] at h1
          simp only [stateOf, hi, if_false, initsBeforeRenders_append, h1]
          simp only [h4, Bool.true_and]
          simp [initsBeforeRenders]
    · rw [procOneEvent_nondriving_eq ids flags stores pk meta ev s k hm hpk]
      exact ⟨h1, h2, h3, h4⟩

theorem procEventList_good (ids : StreamIds) (flags : Flags) (stores : Stores)
    (pk : ProduceKey) (meta : EventID) :
    ∀ (evs : List Event) (s : ProcState), goodState s →
      goodState (stateOf (procEventList ids flags stores pk meta evs s)) := by
  intro evs
  induction evs with
  | nil => intro s h; exact h
  | cons ev rest ih =>
    intro s h
    have hone := procOneEvent_good ids flags stores pk meta ev s h
    unfold procEventList
    cases hres : procOneEvent ids flags stores pk meta ev s with
    | error s1 =>
      rw [hres] at hone
      exact hone
    | ok s1 =>
      rw [hres] at hone
      exact ih s1 hone

theorem procMeta_good (ids : StreamIds) (flags : Flags) (stores : Stores)
    (pk : ProduceKey) (em : EventManager) (meta : EventID) (s : ProcState)
    (h : goodState s) :
    goodState (stateOf (procMeta ids flags stores pk em meta s)) := by
  rw [procMeta_eq]
  exact procEventList_good ids flags stores pk meta _ s h

theorem procMetaList_good (ids : StreamIds) (flags : Flags) (stores : Stores)
    (pk : ProduceKey) (em : EventManager) :
    ∀ (metas : List EventID) (s : ProcState), goodState s →
      goodState (procMetaList ids flags stores pk em metas s).2 := by
  intro metas
  induction metas with
  | nil => intro s h; exact h
  | cons m rest ih =>
    intro s h
    have hone := procMeta_good ids flags stores pk em m s h
    unfold procMetaList
    cases hres : procMeta ids flags stores pk em m s with
    | error s1 =>
      rw [hres] at hone
      exact hone
    | ok s1 =>
      rw [hres] at hone
      exact ih s1 hone

theorem runCycles_good (ids : StreamIds) (flags : Flags) (stores : Stores)
    (pk : ProduceKey) (metas : List EventID) :
    ∀ (ems : List EventManager) (s : ProcState), goodState s →
      goodState (runCycles ids flags stores pk metas ems s) := by
  intro ems
  induction ems with
  | nil => intro s h; exact h
  | cons em rest ih =>
    intro s h
    exact ih _ (procMetaList_good ids flags stores pk em metas s h)

/-! ### More step lemmas -/

theorem SubscribeEvents_driving (ids : StreamIds) (em : EventManager) :
    SubscribeEvents ids em ids.vis_driven_event_id =
      (true, [(em.blocking ids.vis_driven_event_id).2]) := by
  unfold SubscribeEvents
  simp

theorem SubscribeEvents_nondriving (ids : StreamIds) (em : EventManager)
    (id : EventID) (h : id ≠ ids.vis_driven_event_id) :
    SubscribeEvents ids em id = (true, em.drained id) := by
  unfold SubscribeEvents
  simp [h]

theorem procEventList_singleton (ids : StreamIds) (flags : Flags) (stores : Stores)
    (pk : ProduceKey) (meta : EventID) (ev : Event) (s : ProcState) :
    procEventList ids flags stores pk meta [ev] s =
      procOneEvent ids flags stores pk meta ev s := by
  unfold procEventList
  cases h : procOneEvent ids flags stores pk meta ev s <;> simp [procEventList]

theorem procMeta_driving_eq (ids : StreamIds) (flags : Flags) (stores : Stores)
    (pk : ProduceKey) (em : EventManager) (s : ProcState) :
    procMeta ids flags stores pk em ids.vis_driven_event_id s =
      procOneEvent ids flags stores pk ids.vis_driven_event_id
        (em.blocking ids.vis_driven_event_id).2 s := by
  rw [procMeta_eq, SubscribeEvents_driving, procEventList_singleton]

/-! ### Concrete fixtures for witnesses and counterexamples -/

def ids0 : StreamIds := ⟨1, 2, 3, 4, 5, -1⟩

def idsShared : StreamIds := ⟨3, 2, 3, 4, 5, -1⟩

def flagsOn : Flags := ⟨true, true, true, false, true⟩

def flagsOff : Flags := ⟨false, false, false, false, false⟩

def item0 : CameraItem := ⟨42⟩

def objs0 : SensorObjects := ⟨7, [1, 2], 0⟩

def fitem0 : FusionItem := ⟨[3]⟩

def storesFull : Stores :=
  ⟨fun _ => some item0, fun _ => some objs0, fun _ => some objs0,
   fun _ => some objs0, fun _ => some fitem0⟩

def storesEmpty : Stores :=
  ⟨fun _ => none, fun _ => none, fun _ => none, fun _ => none, fun _ => none⟩

def storesImageOnly : Stores :=
  ⟨fun _ => some item0, fun _ => none, fun _ => none, fun _ => none, fun _ => none⟩

def pkOk : ProduceKey := fun _ _ => some "k"

def pkFail : ProduceKey := fun _ _ => none

def ev1 : Event := ⟨1, 5, "dev"⟩

def ev3 : Event := ⟨3, 7, "dev"⟩

def emFail : EventManager := ⟨fun _ => (false, ev1), fun _ => []⟩

def s0 : ProcState := ⟨{}, false, []⟩

def m5 : List (String × String) :=
  [("vis_driven_event_id", "1"), ("radar_event_id", "2"), ("camera_event_id", "3"),
   ("cipv_event_id", "4"), ("fusion_event_id", "5")]

def m10 : List (String × String) :=
  [("vis_driven_event_id", "1"), ("radar_event_id", "2"), ("camera_event_id", "3"),
   ("cipv_event_id", "4"), ("fusion_event_id", "abc")]

/-! ### Claim theorems -/

/-- C5: `InitStream` succeeds on a parsed configuration map if and only if the
map contains all five required identifiers (`vis_driven_event_id`,
`radar_event_id`, `camera_event_id`, `cipv_event_id`, `fusion_event_id`);
a missing `motion_event_id` does not fail initialization and instead yields
the disabled sentinel -1. -/
theorem c5_initstream_required_ids (m : List (String × String)) :
    ((InitStream m).isSome = true ↔
      ((m.lookup "vis_driven_event_id").isSome = true ∧
       (m.lookup "radar_event_id").isSome = true ∧
       (m.lookup "camera_event_id").isSome = true ∧
       (m.lookup "cipv_event_id").isSome = true ∧
       (m.lookup "fusion_event_id").isSome = true)) ∧
    (∀ ids, InitStream m = some ids → m.lookup "motion_event_id" = none →
      ids.motion_event_id = -1) := by
  constructor
  · unfold InitStream
    cases h1 : m.lookup "vis_driven_event_id" with
    | none => simp
    | some v1 =>
      cases h2 : m.lookup "radar_event_id" with
      | none => simp
      | some v2 =>
        cases h3 : m.lookup "camera_event_id" with
        | none => simp
        | some v3 =>
          cases h4 : m.lookup "cipv_event_id" with
          | none => simp
          | some v4 =>
            cases h5 : m.lookup "fusion_event_id" with
            | none => simp
            | some v5 => simp
  · intro ids h hmot
    unfold InitStream at h
    cases h1 : m.lookup "vis_driven_event_id" with
    | none => rw [h1] at h; exact absurd h (by simp)
    | some v1 =>
      rw [h1] at h
      cases h2 : m.lookup "radar_event_id" with
      | none => rw [h2] at h; exact absurd h (by simp)
      | some v2 =>
        rw [h2] at h
        cases h3 : m.lookup "camera_event_id" with
        | none => rw [h3] at h; exact absurd h (by simp)
        | some v3 =>
          rw [h3] at h
          cases h4 : m.lookup "cipv_event_id" with
          | none => rw [h4] at h; exact absurd h (by simp)
          | some v4 =>
            rw [h4] at h
            cases h5 : m.lookup "fusion_event_id" with
            | none => rw [h5] at h; exact absurd h (by simp)
            | some v5 =>
              rw [h5] at h
              simp only [hmot] at h
              cases h
              rfl

/-- Witness for C5: a map with the five required identifiers and no motion
identifier makes `InitStream` succeed with the motion sentinel -1. -/
theorem c5_initstream_required_ids_witness :
    (InitStream m5).isSome = true ∧
    StreamIds.motion_event_id ⟨1, 2, 3, 4, 5, -1⟩ = -1 :=
  ⟨(c5_initstream_required_ids m5).1.mpr (by decide),
   (c5_initstream_required_ids m5).2 ⟨1, 2, 3, 4, 5, -1⟩ (by decide) (by decide)⟩

/-- C10: every identifier value present in the configuration map is converted
with `atoi`, with no validation: `InitStream` succeeds whenever the five
required keys are present, each identifier is the `atoi` of its value, and a
non-numeric value such as "abc" silently yields identifier 0. -/
theorem c10_atoi_no_validation :
    (∀ (m : List (String × String)) (v1 v2 v3 v4 v5 : String),
      m.lookup "vis_driven_event_id" = some v1 →
      m.lookup "radar_event_id" = some v2 →
      m.lookup "camera_event_id" = some v3 →
      m.lookup "cipv_event_id" = some v4 →
      m.lookup "fusion_event_id" = some v5 →
      InitStream m = some
        ⟨atoi v1, atoi v2, atoi v3, atoi v4, atoi v5,
         match m.lookup "motion_event_id" with
         | none => -1
         | some mv => atoi mv⟩) ∧
    atoi "abc" = 0 := by
  constructor
  · intro m v1 v2 v3 v4 v5 h1 h2 h3 h4 h5
    unfold InitStream
    rw [h1, h2, h3, h4, h5]
  · rfl

/-- Witness for C10: a map whose fusion identifier value is "abc" initializes
successfully with fusion identifier 0. -/
theorem c10_atoi_no_validation_witness :
    InitStream m10 = some ⟨1, 2, 3, 4, 0, -1⟩ := by
  rw [c10_atoi_no_validation.1 m10 "1" "2" "3" "4" "abc" rfl rfl rfl rfl rfl]
  decide

/-- C2 counterexample: with the camera identifier sharing the driving
identifier and the camera payload missing from its store, `GetFrameData`
takes the early missing-payload return and the frame timestamp is NOT
updated to the Driving event's timestamp. -/
theorem c2_counterexample :
    ev3.event_id = idsShared.vis_driven_event_id ∧
    (GetFrameData idsShared flagsOn storesEmpty ev3 "dev" "k" 7
        {}).1.frame_timestamp ≠ some 7 := by
  decide

/-- C2 (amended): for every event carrying the Driving identifier, provided
the kind-specific branch did not take an early missing-payload return, the
frame timestamp is unconditionally updated last, on top of whatever the
branch wrote — so an identifier shared between Driving and another kind
triggers both the kind-specific update and the timestamp update. -/
theorem c2_driving_timestamp (ids : StreamIds) (flags : Flags) (stores : Stores)
    (ev : Event) (dev data_key : String) (ts : Timestamp) (c : FrameContent)
    (hd : ev.event_id = ids.vis_driven_event_id)
    (he : (getFrameDataCore ids flags stores ev dev data_key ts c).early = false) :
    (GetFrameData ids flags stores ev dev data_key ts c).1 =
      ((getFrameDataCore ids flags stores ev dev data_key ts c).content).update_timestamp
        ts ∧
    (GetFrameData ids flags stores ev dev data_key ts c).1.frame_timestamp =
      some ts := by
  unfold GetFrameData
  simp only [he, Bool.false_eq_true, if_false, hd, if_pos rfl]
  exact ⟨rfl, rfl⟩

/-- Witness for C2 (amended): with camera and driving identifiers shared and
all payloads present, the camera branch writes its content and the frame
timestamp is still updated to the event's timestamp. -/
theorem c2_driving_timestamp_witness :
    (GetFrameData idsShared flagsOn storesFull ev3 "dev" "k" 7
        {}).1.frame_timestamp = some 7 ∧
    (GetFrameData idsShared flagsOn storesFull ev3 "dev" "k" 7
        {}).1.camera_content = some (7, 7, [1, 2]) :=
  ⟨(c2_driving_timestamp idsShared flagsOn storesFull ev3 "dev" "k" 7 {}
      (by decide) (by decide)).2,
   by decide⟩

/-- Field projections of `update_timestamp`: only the frame timestamp moves. -/
@[simp] theorem update_timestamp_image_content (c : FrameContent) (ts : Timestamp) :
    (c.update_timestamp ts).image_content = c.image_content := rfl

@[simp] theorem update_timestamp_camera_content (c : FrameContent) (ts : Timestamp) :
    (c.update_timestamp ts).camera_content = c.camera_content := rfl

@[simp] theorem update_timestamp_radar_content (c : FrameContent) (ts : Timestamp) :
    (c.update_timestamp ts).radar_content = c.radar_content := rfl

@[simp] theorem update_timestamp_fusion_content (c : FrameContent) (ts : Timestamp) :
    (c.update_timestamp ts).fusion_content = c.fusion_content := rfl

@[simp] theorem update_timestamp_frame_timestamp (c : FrameContent) (ts : Timestamp) :
    (c.update_timestamp ts).frame_timestamp = some ts := rfl

/-- `GetFrameData` unfolded through an already-computed branch-chain result. -/
theorem GetFrameData_of_core (ids : StreamIds) (flags : Flags) (stores : Stores)
    (ev : Event) (dev data_key : String) (ts : Timestamp) (c : FrameContent)
    (r : CoreResult)
    (h : getFrameDataCore ids flags stores ev dev data_key ts c = r) :
    GetFrameData ids flags stores ev dev data_key ts c =
      (if r.early then (r.content, r.lookups)
       else if ev.event_id = ids.vis_driven_event_id then
         (r.content.update_timestamp ts, r.lookups)
       else (r.content, r.lookups)) := by
  unfold GetFrameData
  rw [h]

/-- The radar clause of the branch chain, isolated. -/
theorem getFrameDataCore_radar (ids : StreamIds) (flags : Flags) (stores : Stores)
    (ev : Event) (dev data_key : String) (ts : Timestamp) (c : FrameContent)
    (hr : ev.event_id = ids.radar_event_id)
    (hc : ev.event_id ≠ ids.camera_event_id)
    (hm : ev.event_id ≠ ids.motion_event_id) :
    getFrameDataCore ids flags stores ev dev data_key ts c =
      (if dev = "radar_front" ∧ flags.show_radar_objects then
        match stores.radar_object_data data_key with
        | none => ⟨c, [(.radarObject, data_key)], true⟩
        | some objs =>
          ⟨c.set_radar_content ts objs.objects, [(.radarObject, data_key)], false⟩
      else ⟨c, [], false⟩) := by
  unfold getFrameDataCore
  rw [if_neg hc, if_neg hm, if_pos hr]

/-- The camera clause of the branch chain, isolated. -/
theorem getFrameDataCore_camera (ids : StreamIds) (flags : Flags) (stores : Stores)
    (ev : Event) (dev data_key : String) (ts : Timestamp) (c : FrameContent)
    (hcam : ev.event_id = ids.camera_event_id) :
    getFrameDataCore ids flags stores ev dev data_key ts c =
      (if flags.show_camera_objects || flags.show_camera_objects2d ||
          flags.show_camera_parsing then
        match stores.camera_shared_data data_key with
        | none => ⟨c, [(.cameraShared, data_key)], true⟩
        | some camera_item =>
          match stores.camera_object_data data_key with
          | none =>
            ⟨c.set_image_content ts camera_item.image_src_mat,
             [(.cameraShared, data_key), (.cameraObject, data_key)], true⟩
          | some objs =>
            if flags.show_camera_parsing then
              ⟨c.set_image_content ts camera_item.image_src_mat,
               [(.cameraShared, data_key), (.cameraObject, data_key)], false⟩
            else
              ⟨(c.set_image_content ts camera_item.image_src_mat).set_camera_content
                  ts objs.sensor2world_pose objs.objects,
               [(.cameraShared, data_key), (.cameraObject, data_key)], false⟩
      else ⟨c, [], false⟩) := by
  unfold getFrameDataCore
  rw [if_pos hcam]

/-- The fusion clause of the branch chain, isolated. -/
theorem getFrameDataCore_fusion (ids : StreamIds) (flags : Flags) (stores : Stores)
    (ev : Event) (dev data_key : String) (ts : Timestamp) (c : FrameContent)
    (hf : ev.event_id = ids.fusion_event_id)
    (hc : ev.event_id ≠ ids.camera_event_id)
    (hm : ev.event_id ≠ ids.motion_event_id)
    (hr : ev.event_id ≠ ids.radar_event_id) :
    getFrameDataCore ids flags stores ev dev data_key ts c =
      (if flags.show_fused_objects then
        match stores.fusion_data data_key with
        | none => ⟨c, [(.fusionShared, data_key)], true⟩
        | some fusion_item =>
          ⟨c.set_fusion_content ts fusion_item.obstacles,
           [(.fusionShared, data_key)], false⟩
      else ⟨c, [], false⟩) := by
  unfold getFrameDataCore
  rw [if_neg hc, if_neg hm, if_neg hr, if_pos hf]

/-- The cipv clause of the branch chain, isolated. -/
theorem getFrameDataCore_cipv (ids : StreamIds) (flags : Flags) (stores : Stores)
    (ev : Event) (dev data_key : String) (ts : Timestamp) (c : FrameContent)
    (hcv : ev.event_id = ids.cipv_event_id)
    (hc : ev.event_id ≠ ids.camera_event_id)
    (hm : ev.event_id ≠ ids.motion_event_id)
    (hr : ev.event_id ≠ ids.radar_event_id)
    (hf : ev.event_id ≠ ids.fusion_event_id) :
    getFrameDataCore ids flags stores ev dev data_key ts c =
      (if flags.show_camera_objects || flags.show_camera_objects2d ||
          flags.show_camera_parsing then
        match stores.camera_shared_data data_key with
        | none => ⟨c, [(.cameraShared, data_key)], true⟩
        | some camera_item =>
          match stores.cipv_object_data data_key with
          | none =>
            ⟨c.set_image_content ts camera_item.image_src_mat,
             [(.cameraShared, data_key), (.cipvObject, data_key)], true⟩
          | some objs =>
            if flags.show_camera_parsing then
              ⟨c.set_image_content ts camera_item.image_src_mat,
               [(.cameraShared, data_key), (.cipvObject, data_key)], false⟩
            else
              ⟨(c.set_image_content ts camera_item.image_src_mat).set_camera_content
                  ts objs.sensor2world_pose objs.objects,
               [(.cameraShared, data_key), (.cipvObject, data_key)], false⟩
      else ⟨c, [], false⟩) := by
  unfold getFrameDataCore
  rw [if_neg hc, if_neg hm, if_neg hr, if_neg hf, if_pos hcv]

/-- C7: for a radar-kind event, radar content is written into the snapshot
only if the radar toggle is enabled and the device label is "radar_front";
for any other device label the radar content is unchanged, no store lookup
happens and no error path is taken. -/
theorem c7_radar_device_filter (ids : StreamIds) (flags : Flags) (stores : Stores)
    (ev : Event) (dev data_key : String) (ts : Timestamp) (c : FrameContent)
    (hr : ev.event_id = ids.radar_event_id)
    (hc : ev.event_id ≠ ids.camera_event_id)
    (hm : ev.event_id ≠ ids.motion_event_id) :
    ((GetFrameData ids flags stores ev dev data_key ts c).1.radar_content ≠
        c.radar_content →
      flags.show_radar_objects = true ∧ dev = "radar_front") ∧
    (dev ≠ "radar_front" →
      (GetFrameData ids flags stores ev dev data_key ts c).1.radar_content =
          c.radar_content ∧
      (getFrameDataCore ids flags stores ev dev data_key ts c).early = false ∧
      (GetFrameData ids flags stores ev dev data_key ts c).2 = []) := by
  have hcore := getFrameDataCore_radar ids flags stores ev dev data_key ts c hr hc hm
  by_cases hg : dev = "radar_front" ∧ flags.show_radar_objects
  · exact ⟨fun _ => ⟨hg.2, hg.1⟩, fun hdev => absurd hg.1 hdev⟩
  · rw [if_neg hg] at hcore
    have hget := GetFrameData_of_core ids flags stores ev dev data_key ts c _ hcore
    constructor
    · intro hch
      rw [hget] at hch
      by_cases hvd : ev.event_id = ids.vis_driven_event_id <;>
        simp [hvd] at hch
    · intro _
      refine ⟨?_, by rw [hcore], ?_⟩
      · rw [hget]
        by_cases hvd : ev.event_id = ids.vis_driven_event_id <;> simp [hvd]
      · rw [hget]
        by_cases hvd : ev.event_id = ids.vis_driven_event_id <;> simp [hvd]

/-- Witness for C7: a radar event with device label "radar_rear" and the
radar toggle enabled leaves the radar content unchanged, takes no error path
and performs no store lookups. -/
theorem c7_radar_device_filter_witness :
    (GetFrameData ids0 flagsOn storesFull ⟨2, 5, "radar_rear"⟩ "radar_rear" "k" 5
        {}).1.radar_content = ({} : FrameContent).radar_content ∧
    (getFrameDataCore ids0 flagsOn storesFull ⟨2, 5, "radar_rear"⟩ "radar_rear" "k" 5
        {}).early = false ∧
    (GetFrameData ids0 flagsOn storesFull ⟨2, 5, "radar_rear"⟩ "radar_rear" "k" 5
        {}).2 = [] :=
  (c7_radar_device_filter ids0 flagsOn storesFull ⟨2, 5, "radar_rear"⟩ "radar_rear"
      "k" 5 {} (by decide) (by decide) (by decide)).2 (by decide)

/-- An inert branch-chain result leaves every content field except the frame
timestamp unchanged and performs no lookups. -/
theorem GetFrameData_inert (ids : StreamIds) (flags : Flags) (stores : Stores)
    (ev : Event) (dev data_key : String) (ts : Timestamp) (c : FrameContent)
    (h : getFrameDataCore ids flags stores ev dev data_key ts c = ⟨c, [], false⟩) :
    (GetFrameData ids flags stores ev dev data_key ts c).2 = [] ∧
    (GetFrameData ids flags stores ev dev data_key ts c).1.image_content =
      c.image_content ∧
    (GetFrameData ids flags stores ev dev data_key ts c).1.camera_content =
      c.camera_content ∧
    (GetFrameData ids flags stores ev dev data_key ts c).1.radar_content =
      c.radar_content ∧
    (GetFrameData ids flags stores ev dev data_key ts c).1.fusion_content =
      c.fusion_content := by
  have hget := GetFrameData_of_core ids flags stores ev dev data_key ts c _ h
  rw [hget]
  by_cases hvd : ev.event_id = ids.vis_driven_event_id <;> simp [hvd]

/-- C9: when a kind's feature toggle is disabled (radar toggle for Radar; all
of camera-3D, camera-2D and camera-parsing for Camera and Cipv; fusion toggle
for Fusion), processing an event of that kind performs zero store lookups
and leaves that kind's snapshot fields unchanged. -/
theorem c9_disabled_toggles_no_lookups (ids : StreamIds) (flags : Flags)
    (stores : Stores) (ev : Event) (dev data_key : String) (ts : Timestamp)
    (c : FrameContent) :
    (ev.event_id = ids.radar_event_id → ev.event_id ≠ ids.camera_event_id →
      ev.event_id ≠ ids.motion_event_id → flags.show_radar_objects = false →
      (GetFrameData ids flags stores ev dev data_key ts c).2 = [] ∧
      (GetFrameData ids flags stores ev dev data_key ts c).1.radar_content =
        c.radar_content) ∧
    (ev.event_id = ids.camera_event_id →
      flags.show_camera_objects = false → flags.show_camera_objects2d = false →
      flags.show_camera_parsing = false →
      (GetFrameData ids flags stores ev dev data_key ts c).2 = [] ∧
      (GetFrameData ids flags stores ev dev data_key ts c).1.image_content =
        c.image_content ∧
      (GetFrameData ids flags stores ev dev data_key ts c).1.camera_content =
        c.camera_content) ∧
    (ev.event_id = ids.cipv_event_id → ev.event_id ≠ ids.camera_event_id →
      ev.event_id ≠ ids.motion_event_id → ev.event_id ≠ ids.radar_event_id →
      ev.event_id ≠ ids.fusion_event_id →
      flags.show_camera_objects = false → flags.show_camera_objects2d = false →
      flags.show_camera_parsing = false →
      (GetFrameData ids flags stores ev dev data_key ts c).2 = [] ∧
      (GetFrameData ids flags stores ev dev data_key ts c).1.image_content =
        c.image_content ∧
      (GetFrameData ids flags stores ev dev data_key ts c).1.camera_content =
        c.camera_content) ∧
    (ev.event_id = ids.fusion_event_id → ev.event_id ≠ ids.camera_event_id →
      ev.event_id ≠ ids.motion_event_id → ev.event_id ≠ ids.radar_event_id →
      flags.show_fused_objects = false →
      (GetFrameData ids flags stores ev dev data_key ts c).2 = [] ∧
      (GetFrameData ids flags stores ev dev data_key ts c).1.fusion_content =
        c.fusion_content) := by
  refine ⟨?_, ?_, ?_, ?_⟩
  · intro hr hc hm hf
    have hcore := getFrameDataCore_radar ids flags stores ev dev data_key ts c hr hc hm
    rw [if_neg (fun hx => by simp [hf] at hx)] at hcore
    have h := GetFrameData_inert ids flags stores ev dev data_key ts c hcore
    exact ⟨h.1, h.2.2.2.1⟩
  · intro hcam h1 h2 h3
    have hcore := getFrameDataCore_camera ids flags stores ev dev data_key ts c hcam
    rw [if_neg (by simp [h1, h2, h3])] at hcore
    have h := GetFrameData_inert ids flags stores ev dev data_key ts c hcore
    exact ⟨h.1, h.2.1, h.2.2.1⟩
  · intro hcv hc hm hr hf h1 h2 h3
    have hcore :=
      getFrameDataCore_cipv ids flags stores ev dev data_key ts c hcv hc hm hr hf
    rw [if_neg (by simp [h1, h2, h3])] at hcore
    have h := GetFrameData_inert ids flags stores ev dev data_key ts c hcore
    exact ⟨h.1, h.2.1, h.2.2.1⟩
  · intro hfu hc hm hr hf
    have hcore :=
      getFrameDataCore_fusion ids flags stores ev dev data_key ts c hfu hc hm hr
    rw [if_neg (by simp [hf])] at hcore
    have h := GetFrameData_inert ids flags stores ev dev data_key ts c hcore
    exact ⟨h.1, h.2.2.2.2⟩

/-- Witness for C9: with every display toggle off, a camera event performs no
store lookups even though the stores hold payloads, and leaves the image and
camera contents unchanged. -/
theorem c9_disabled_toggles_no_lookups_witness :
    (GetFrameData ids0 flagsOff storesFull ⟨3, 5, "dev"⟩ "dev" "k" 5 {}).2 = [] ∧
    (GetFrameData ids0 flagsOff storesFull ⟨3, 5, "dev"⟩ "dev" "k" 5
        {}).1.image_content = ({} : FrameContent).image_content ∧
    (GetFrameData ids0 flagsOff storesFull ⟨3, 5, "dev"⟩ "dev" "k" 5
        {}).1.camera_content = ({} : FrameContent).camera_content :=
  (c9_disabled_toggles_no_lookups ids0 flagsOff storesFull ⟨3, 5, "dev"⟩ "dev" "k" 5
      {}).2.1 (by decide) rfl rfl rfl

/-- C8 counterexample: for a camera-kind event with the image payload present
but the detection-list payload missing, the correlator does NOT leave the
snapshot unchanged for the camera kind: the image content is updated before
the missing detection payload forces the early return. -/
theorem c8_counterexample :
    storesImageOnly.camera_object_data "k" = none ∧
    (GetFrameData ids0 flagsOn storesImageOnly ⟨3, 9, "dev"⟩ "dev" "k" 9
        {}).1.image_content ≠ ({} : FrameContent).image_content := by
  decide

/-- C8 (amended): a missing store payload never lets an error escape the
correlator and never aborts the cycle — whenever every key derivation
succeeds the event loop completes with an ok result regardless of store
contents — and for the Camera kind a missing image payload leaves the camera
fields unchanged; but when the image payload is present and the
detection-list payload is missing, the image content is still updated and
only the camera-detections contribution is omitted. -/
theorem c8_missing_payload_policy (ids : StreamIds) (flags : Flags)
    (stores : Stores) (pk : ProduceKey) (meta : EventID) :
    (∀ (evs : List Event) (s : ProcState),
      (∀ ev ∈ evs, (pk ev.timestamp ev.reserve).isSome = true) →
      ∃ s2, procEventList ids flags stores pk meta evs s = .ok s2) ∧
    (∀ (ev : Event) (dev data_key : String) (ts : Timestamp) (c : FrameContent),
      ev.event_id = ids.camera_event_id →
      stores.camera_shared_data data_key = none →
      (GetFrameData ids flags stores ev dev data_key ts c).1.image_content =
        c.image_content ∧
      (GetFrameData ids flags stores ev dev data_key ts c).1.camera_content =
        c.camera_content) ∧
    (∀ (ev : Event) (dev data_key : String) (ts : Timestamp) (c : FrameContent)
      (item : CameraItem),
      ev.event_id = ids.camera_event_id →
      (flags.show_camera_objects || flags.show_camera_objects2d ||
        flags.show_camera_parsing) = true →
      stores.camera_shared_data data_key = some item →
      stores.camera_object_data data_key = none →
      (GetFrameData ids flags stores ev dev data_key ts c).1.image_content =
        some (ts, item.image_src_mat) ∧
      (GetFrameData ids flags stores ev dev data_key ts c).1.camera_content =
        c.camera_content) := by
  refine ⟨?_, ?_, ?_⟩
  · intro evs
    induction evs with
    | nil => intro s _; exact ⟨s, rfl⟩
    | cons ev rest ih =>
      intro s h
      have hk := h ev (List.mem_cons_self ev rest)
      obtain ⟨k, hk⟩ := Option.isSome_iff_exists.mp hk
      by_cases hm : meta = ids.vis_driven_event_id
      · subst hm
        unfold procEventList
        rw [procOneEvent_driving_eq ids flags stores pk ev s k hk]
        exact ih _ (fun e he => h e (List.mem_cons_of_mem ev he))
      · unfold procEventList
        rw [procOneEvent_nondriving_eq ids flags stores pk meta ev s k hm hk]
        exact ih _ (fun e he => h e (List.mem_cons_of_mem ev he))
  · intro ev dev data_key ts c hcam hnone
    have hcore := getFrameDataCore_camera ids flags stores ev dev data_key ts c hcam
    by_cases htog : (flags.show_camera_objects || flags.show_camera_objects2d ||
        flags.show_camera_parsing) = true
    · rw [if_pos htog] at hcore
      simp only [hnone] at hcore
      have hget := GetFrameData_of_core ids flags stores ev dev data_key ts c _ hcore
      rw [hget]
      simp
    · rw [if_neg htog] at hcore
      have h := GetFrameData_inert ids flags stores ev dev data_key ts c hcore
      exact ⟨h.2.1, h.2.2.1⟩
  · intro ev dev data_key ts c item hcam htog hsome hnone
    have hcore := getFrameDataCore_camera ids flags stores ev dev data_key ts c hcam
    rw [if_pos htog] at hcore
    simp only [hsome, hnone] at hcore
    have hget := GetFrameData_of_core ids flags stores ev dev data_key ts c _ hcore
    rw [hget]
    simp [FrameContent.set_image_content]

/-- Witness for C8 (amended): concrete camera event with image present and
detections missing: the image content is set and the camera content stays. -/
theorem c8_missing_payload_policy_witness :
    (GetFrameData ids0 flagsOn storesImageOnly ⟨3, 9, "dev"⟩ "dev" "k" 9
        {}).1.image_content = some (9, 42) ∧
    (GetFrameData ids0 flagsOn storesImageOnly ⟨3, 9, "dev"⟩ "dev" "k" 9
        {}).1.camera_content = ({} : FrameContent).camera_content :=
  (c8_missing_payload_policy ids0 flagsOn storesImageOnly pkOk 3).2.2 ⟨3, 9, "dev"⟩
    "dev" "k" 9 {} item0 rfl (by decide) (by decide) (by decide)

theorem procEventList_cons (ids : StreamIds) (flags : Flags) (stores : Stores)
    (pk : ProduceKey) (meta : EventID) (ev : Event) (evs : List Event)
    (s : ProcState) :
    procEventList ids flags stores pk meta (ev :: evs) s =
      (match procOneEvent ids flags stores pk meta ev s with
       | .error s1 => .error s1
       | .ok s1 => procEventList ids flags stores pk meta evs s1) := rfl

theorem procMetaList_cons (ids : StreamIds) (flags : Flags) (stores : Stores)
    (pk : ProduceKey) (em : EventManager) (m : EventID) (rest : List EventID)
    (s : ProcState) :
    procMetaList ids flags stores pk em (m :: rest) s =
      (match procMeta ids flags stores pk em m s with
       | .error s1 => (Status.perception_error, s1)
       | .ok s1 => procMetaList ids flags stores pk em rest s1) := rfl

/-- C1 counterexample: the blocking subscribe for the Driving kind fails, yet
`ProcEvents` completes the cycle with `Status.ok` and a render occurs. -/
theorem c1_counterexample :
    (emFail.blocking ids0.vis_driven_event_id).1 = false ∧
    (ProcEvents ids0 flagsOn storesFull pkOk emFail [1] s0).1 = Status.ok ∧
    0 < countRender (ProcEvents ids0 flagsOn storesFull pkOk emFail [1] s0).2.trace := by
  decide

/-- C1 (amended): the result of the blocking Subscribe on the Driving kind is
discarded: even when that subscribe fails, `SubscribeEvents` still returns
true and pushes the event object, the cycle is not aborted, and (provided
key derivation succeeds) the render for that Driving event still occurs. -/
theorem c1_subscribe_failure_ignored (ids : StreamIds) (flags : Flags)
    (stores : Stores) (pk : ProduceKey) (em : EventManager) (s : ProcState)
    (k : String)
    (_hfail : (em.blocking ids.vis_driven_event_id).1 = false)
    (hpk : pk (em.blocking ids.vis_driven_event_id).2.timestamp
        (em.blocking ids.vis_driven_event_id).2.reserve = some k) :
    SubscribeEvents ids em ids.vis_driven_event_id =
      (true, [(em.blocking ids.vis_driven_event_id).2]) ∧
    countRender
        (stateOf (procMeta ids flags stores pk em ids.vis_driven_event_id s)).trace =
      countRender s.trace + 1 := by
  refine ⟨SubscribeEvents_driving ids em, ?_⟩
  rw [procMeta_driving_eq, procOneEvent_driving_eq ids flags stores pk _ s k hpk]
  cases hi : s.init_ <;> simp [stateOf, countRender_append, countRender]

/-- Witness for C1 (amended): concrete failing blocking subscribe, render
still appended. -/
theorem c1_subscribe_failure_ignored_witness :
    SubscribeEvents ids0 emFail ids0.vis_driven_event_id =
      (true, [(emFail.blocking ids0.vis_driven_event_id).2]) ∧
    countRender
        (stateOf (procMeta ids0 flagsOn storesFull pkOk emFail
          ids0.vis_driven_event_id s0)).trace =
      countRender s0.trace + 1 :=
  c1_subscribe_failure_ignored ids0 flagsOn storesFull pkOk emFail s0 "k" rfl rfl

/-- C6: a key-derivation failure aborts the entire cycle immediately with a
failure status: the failing event is not correlated (state unchanged at the
abort point), the remaining events of that meta are not processed, and the
remaining metas of the cycle are not processed. -/
theorem c6_keyfail_aborts_cycle (ids : StreamIds) (flags : Flags) (stores : Stores)
    (pk : ProduceKey) (em : EventManager) :
    (∀ (meta : EventID) (ev : Event) (s : ProcState),
      pk ev.timestamp ev.reserve = none →
      procOneEvent ids flags stores pk meta ev s = .error s) ∧
    (∀ (meta : EventID) (evs1 : List Event) (ev : Event) (evs2 : List Event)
      (s s1 : ProcState),
      procEventList ids flags stores pk meta evs1 s = .ok s1 →
      pk ev.timestamp ev.reserve = none →
      procEventList ids flags stores pk meta (evs1 ++ ev :: evs2) s = .error s1) ∧
    (∀ (metas1 : List EventID) (meta : EventID) (metas2 : List EventID)
      (s s1 s2 : ProcState),
      procMetaList ids flags stores pk em metas1 s = (Status.ok, s1) →
      procMeta ids flags stores pk em meta s1 = .error s2 →
      ProcEvents ids flags stores pk em (metas1 ++ meta :: metas2) s =
        (Status.perception_error, s2)) := by
  refine ⟨?_, ?_, ?_⟩
  · exact fun meta ev s h => procOneEvent_keyfail ids flags stores pk meta ev s h
  · intro meta evs1
    induction evs1 with
    | nil =>
      intro ev evs2 s s1 hok hfail
      unfold procEventList at hok
      injection hok with h
      subst h
      rw [List.nil_append, procEventList_cons,
        procOneEvent_keyfail ids flags stores pk meta ev s hfail]
    | cons e rest ih =>
      intro ev evs2 s s1 hok hfail
      rw [procEventList_cons] at hok
      rw [List.cons_append, procEventList_cons]
      cases hres : procOneEvent ids flags stores pk meta e s with
      | error st =>
        rw [hres] at hok
        exact absurd hok (by simp)
      | ok st =>
        rw [hres] at hok
        exact ih ev evs2 st s1 hok hfail
  · intro metas1
    induction metas1 with
    | nil =>
      intro meta metas2 s s1 s2 hok herr
      unfold procMetaList at hok
      injection hok with _ h2
      subst h2
      rw [List.nil_append]
      unfold ProcEvents
      rw [procMetaList_cons, herr]
    | cons m rest ih =>
      intro meta metas2 s s1 s2 hok herr
      rw [procMetaList_cons] at hok
      rw [List.cons_append]
      unfold ProcEvents
      rw [procMetaList_cons]
      cases hres : procMeta ids flags stores pk em m s with
      | error st =>
        rw [hres] at hok
        injection hok with h1 _
        exact absurd h1 (by simp)
      | ok st =>
        rw [hres] at hok
        have h := ih meta metas2 st s1 s2 hok herr
        unfold ProcEvents at h
        exact h

/-- Witness for C6: a failing key derivation on a concrete event makes the
per-event step abort with the error state. -/
theorem c6_keyfail_aborts_cycle_witness :
    procOneEvent ids0 flagsOn storesFull pkFail 1 ev1 s0 = .error s0 :=
  (c6_keyfail_aborts_cycle ids0 flagsOn storesFull pkFail emFail).1 1 ev1 s0 rfl

/-- C3: across arbitrarily many cycles and Driving events, the visualizer's
`init()` runs at most once, never when no render has occurred, exactly once
as soon as any render has occurred, and every render in the trace is
preceded by exactly one `init()` (lazy, first-use-only, guarded by `init_`). -/
theorem c3_init_exactly_once (ids : StreamIds) (flags : Flags) (stores : Stores)
    (pk : ProduceKey) (metas : List EventID) (ems : List EventManager) :
    countInit (runCycles ids flags stores pk metas ems ⟨{}, false, []⟩).trace ≤ 1 ∧
    (countRender (runCycles ids flags stores pk metas ems ⟨{}, false, []⟩).trace = 0 →
      countInit (runCycles ids flags stores pk metas ems ⟨{}, false, []⟩).trace = 0) ∧
    (0 < countRender (runCycles ids flags stores pk metas ems ⟨{}, false, []⟩).trace →
      countInit (runCycles ids flags stores pk metas ems ⟨{}, false, []⟩).trace = 1) ∧
    (∀ (t1 t2 : List VisAction) (c : FrameContent),
      (runCycles ids flags stores pk metas ems ⟨{}, false, []⟩).trace =
        t1 ++ VisAction.render c :: t2 → countInit t1 = 1) := by
  have hg := runCycles_good ids flags stores pk metas ems ⟨{}, false, []⟩
    ⟨rfl, fun _ => rfl, fun h => by simp at h, rfl⟩
  set s := runCycles ids flags stores pk metas ems ⟨{}, false, []⟩ with hs
  obtain ⟨h1, h2, h3, h4⟩ := hg
  refine ⟨?_, ?_, ?_, ?_⟩
  · rw [h1]
    cases s.init_ <;> simp
  · intro hr
    cases hb : s.init_ with
    | true =>
      have := h3 hb
      omega
    | false =>
      rw [hb] at h1
      simpa using h1
  · intro hr
    cases hb : s.init_ with
    | false =>
      have := h2 hb
      omega
    | true =>
      rw [hb] at h1
      simpa using h1
  · intro t1 t2 c heq
    have := initsBeforeRenders_spec t1 0 t2 c (by rw [← heq]; exact h4)
    omega

/-- Witness for C3: one cycle with one Driving event yields exactly one
`init()` in the trace. -/
theorem c3_init_exactly_once_witness :
    countInit (runCycles ids0 flagsOn storesFull pkOk [1] [emFail]
      ⟨{}, false, []⟩).trace = 1 :=
  (c3_init_exactly_once ids0 flagsOn storesFull pkOk [1] [emFail]).2.2.1 (by decide)

theorem procEventList_nondriving_trace (ids : StreamIds) (flags : Flags)
    (stores : Stores) (pk : ProduceKey) (meta : EventID)
    (hm : meta ≠ ids.vis_driven_event_id) :
    ∀ (evs : List Event) (s : ProcState),
      (stateOf (procEventList ids flags stores pk meta evs s)).trace = s.trace := by
  intro evs
  induction evs with
  | nil => intro s; rfl
  | cons ev rest ih =>
    intro s
    rw [procEventList_cons]
    cases hpk : pk ev.timestamp ev.reserve with
    | none =>
      rw [procOneEvent_keyfail ids flags stores pk meta ev s hpk]
      rfl
    | some k =>
      rw [procOneEvent_nondriving_eq ids flags stores pk meta ev s k hm hpk]
      exact ih _

theorem procMeta_nondriving_trace (ids : StreamIds) (flags : Flags)
    (stores : Stores) (pk : ProduceKey) (em : EventManager) (meta : EventID)
    (s : ProcState) (hm : meta ≠ ids.vis_driven_event_id) :
    (stateOf (procMeta ids flags stores pk em meta s)).trace = s.trace := by
  rw [procMeta_eq]
  exact procEventList_nondriving_trace ids flags stores pk meta hm _ s

/-- C4: within a cycle, renders are triggered only by the Driving meta —
processing any non-Driving meta leaves the visualizer trace unchanged, and a
cycle whose metas exclude the Driving identifier appends no trace entries —
while processing the Driving meta performs exactly one render, immediately
after that event's correlation: the rendered content is exactly the
`GetFrameData` result for the blocking event applied to the snapshot as
accumulated so far; and a cycle that completes with ok renders exactly once
per Driving meta. -/
theorem c4_render_only_driving (ids : StreamIds) (flags : Flags) (stores : Stores)
    (pk : ProduceKey) (em : EventManager) :
    (∀ (meta : EventID) (s : ProcState), meta ≠ ids.vis_driven_event_id →
      (stateOf (procMeta ids flags stores pk em meta s)).trace = s.trace) ∧
    (∀ (s : ProcState) (k : String),
      pk (em.blocking ids.vis_driven_event_id).2.timestamp
         (em.blocking ids.vis_driven_event_id).2.reserve = some k →
      procMeta ids flags stores pk em ids.vis_driven_event_id s =
        Except.ok
          { content :=
              (GetFrameData ids flags stores (em.blocking ids.vis_driven_event_id).2
                (em.blocking ids.vis_driven_event_id).2.reserve k
                (em.blocking ids.vis_driven_event_id).2.timestamp s.content).1,
            init_ := true,
            trace := s.trace ++
              (if s.init_ then
                [VisAction.update_camera_system
                   (GetFrameData ids flags stores
                     (em.blocking ids.vis_driven_event_id).2
                     (em.blocking ids.vis_driven_event_id).2.reserve k
                     (em.blocking ids.vis_driven_event_id).2.timestamp s.content).1,
                 VisAction.render
                   (GetFrameData ids flags stores
                     (em.blocking ids.vis_driven_event_id).2
                     (em.blocking ids.vis_driven_event_id).2.reserve k
                     (em.blocking ids.vis_driven_event_id).2.timestamp s.content).1]
              else
                [VisAction.init,
                 VisAction.update_camera_system
                   (GetFrameData ids flags stores
                     (em.blocking ids.vis_driven_event_id).2
                     (em.blocking ids.vis_driven_event_id).2.reserve k
                     (em.blocking ids.vis_driven_event_id).2.timestamp s.content).1,
                 VisAction.render
                   (GetFrameData ids flags stores
                     (em.blocking ids.vis_driven_event_id).2
                     (em.blocking ids.vis_driven_event_id).2.reserve k
                     (em.blocking ids.vis_driven_event_id).2.timestamp s.content).1]) }) ∧
    (∀ (metas : List EventID) (s : ProcState), ids.vis_driven_event_id ∉ metas →
      (ProcEvents ids flags stores pk em metas s).2.trace = s.trace) ∧
    (∀ (metas : List EventID) (s s2 : ProcState),
      procMetaList ids flags stores pk em metas s = (Status.ok, s2) →
      countRender s2.trace =
        countRender s.trace + metas.count ids.vis_driven_event_id) := by
  refine ⟨?_, ?_, ?_, ?_⟩
  · exact fun meta s hm => procMeta_nondriving_trace ids flags stores pk em meta s hm
  · intro s k hpk
    rw [procMeta_driving_eq]
    exact procOneEvent_driving_eq ids flags stores pk _ s k hpk
  · intro metas
    induction metas with
    | nil => intro s _; rfl
    | cons m rest ih =>
      intro s hnotin
      simp only [List.mem_cons, not_or] at hnotin
      obtain ⟨hne, hnotin2⟩ := hnotin
      unfold ProcEvents
      rw [procMetaList_cons]
      have htr := procMeta_nondriving_trace ids flags stores pk em m s (Ne.symm hne)
      cases hres : procMeta ids flags stores pk em m s with
      | error st =>
        rw [hres] at htr
        exact htr
      | ok st =>
        rw [hres] at htr
        have h2 := ih st hnotin2
        unfold ProcEvents at h2
        exact h2.trans htr
  · intro metas
    induction metas with
    | nil =>
      intro s s2 hok
      unfold procMetaList at hok
      injection hok with _ h2
      subst h2
      simp
    | cons m rest ih =>
      intro s s2 hok
      rw [procMetaList_cons] at hok
      cases hres : procMeta ids flags stores pk em m s with
      | error st =>
        rw [hres] at hok
        injection hok with h1 _
        exact absurd h1 (by simp)
      | ok st =>
        rw [hres] at hok
        have hc := ih st s2 hok
        by_cases hm : m = ids.vis_driven_event_id
        · subst hm
          rw [procMeta_driving_eq] at hres
          cases hpk : pk (em.blocking ids.vis_driven_event_id).2.timestamp
              (em.blocking ids.vis_driven_event_id).2.reserve with
          | none =>
            rw [procOneEvent_keyfail ids flags stores pk _ _ s hpk] at hres
            exact absurd hres (by simp)
          | some k =>
            rw [procOneEvent_driving_eq ids flags stores pk _ s k hpk] at hres
            injection hres with h3
            have h4 : countRender st.trace = countRender s.trace + 1 := by
              rw [← h3]
              cases hi : s.init_ <;> simp [countRender_append, countRender]
            rw [hc, h4, List.count_cons_self]
            omega
        · have htr := procMeta_nondriving_trace ids flags stores pk em m s hm
          rw [hres] at htr
          have h4 : countRender st.trace = countRender s.trace :=
            congrArg countRender htr
          rw [hc, h4, List.count_cons_of_ne (fun h => hm h.symm)]

/-- Witness for C4: a non-Driving meta leaves the visualizer trace unchanged. -/
theorem c4_render_only_driving_witness :
    (stateOf (procMeta ids0 flagsOn storesFull pkOk emFail 2 s0)).trace =
      s0.trace :=
  (c4_render_only_driving ids0 flagsOn storesFull pkOk emFail).1 2 s0 (by decide)
